import Mathlib

/-!
# Request handlers for bookings and users

A shallow embedding of `src/application/Booking.js` and `src/application/user.js`.

* JavaScript values are a small data type (`JSValue`) with the language's truthiness test
  and property read.
* A handler is a state-passing computation over a `World`: the store, the response object,
  the errors handed to `next`, and the log of calls made on the document model.
* The document model (`Booking`, `User`) imported by the handlers is a parameter of each
  handler (`Model`); `Store.model` is the document store described by the specification.
-/

/-! ## JavaScript values -/

/-- JavaScript values that reach the handlers. Numbers are kept as integers plus `NaN`:
the handlers only test a number for truthiness, which depends on nothing but whether it is
zero or `NaN`. -/
inductive JSValue where
  | undefined
  | null
  | bool (b : Bool)
  | num (n : Int)
  | nan
  | str (s : String)
  | arr (items : List JSValue)
  | obj (fields : List (String × JSValue))
  deriving Repr

/-- The own properties of a plain object, in insertion order. -/
abbrev Fields := List (String × JSValue)

namespace JSValue

mutual
/-- Structural equality of values, as a boolean. -/
def beq : JSValue → JSValue → Bool
  | undefined, undefined => true
  | null, null => true
  | bool a, bool b => a == b
  | num a, num b => a == b
  | nan, nan => true
  | str a, str b => a == b
  | arr a, arr b => beqItems a b
  | obj a, obj b => beqFields a b
  | _, _ => false
/-- Structural equality of arrays of values. -/
def beqItems : List JSValue → List JSValue → Bool
  | [], [] => true
  | x :: xs, y :: ys => beq x y && beqItems xs ys
  | _, _ => false
/-- Structural equality of property lists. -/
def beqFields : List (String × JSValue) → List (String × JSValue) → Bool
  | [], [] => true
  | (k, x) :: xs, (l, y) :: ys => k == l && beq x y && beqFields xs ys
  | _, _ => false
end

/-- JavaScript `ToBoolean`: `undefined`, `null`, `false`, `0`, `NaN` and the empty string are
falsy; every other value (every object and array included) is truthy. -/
def truthy : JSValue → Bool
  | undefined => false
  | null => false
  | bool b => b
  | num n => n != 0
  | nan => false
  | str s => s != ""
  | arr _ => true
  | obj _ => true

end JSValue

open JSValue

/-- The value of own property `name` in a property list; `undefined` when it is absent. -/
def getField (fields : Fields) (name : String) : JSValue :=
  match fields.lookup name with
  | some v => v
  | none => .undefined

/-- The `TypeError` raised by reading property `name` of `undefined` or `null`. The engine's
message text is not modelled; the error records its class, the base value and the property. -/
def typeError (base : JSValue) (name : String) : JSValue :=
  .obj [("name", .str "TypeError"), ("base", base), ("reading", .str name)]

/-- The `ReferenceError` raised by evaluating an identifier that has no binding. -/
def referenceError (identifier : String) : JSValue :=
  .obj [("name", .str "ReferenceError"), ("identifier", .str identifier)]

/-! ## Computations with effects -/

/-- How an evaluation ends: normally with a value, or abruptly with a thrown value. -/
inductive Completion (α : Type) where
  | normal (a : α)
  | throw (e : JSValue)
  deriving Repr

/-- What `res.send()` or `res.json(v)` has sent. -/
inductive Body where
  | empty
  | json (v : JSValue)
  deriving Repr

/-- The response object: the status set by `res.status`, if any, and the body sent, if any. -/
structure Response where
  statusCode : Option Nat
  body : Option Body
  deriving Repr

/-- A call made on a document model, with the model's name and the arguments. -/
inductive StoreCall where
  | create (model : String) (doc : Fields)
  | find (model : String) (filter : Option Fields)
  | findPopulate (model : String) (filter : Fields) (path : String)
  deriving Repr

/-- The request object: the parsed body, the path parameters and the query string. -/
structure Request where
  body : JSValue
  params : JSValue
  query : JSValue
  deriving Repr

/-- Everything a handler can observe or change. -/
structure World (S : Type) where
  store : S
  res : Response
  nextCalls : List JSValue
  storeCalls : List StoreCall

/-- The world at the start of a request: nothing sent, nothing called. -/
def World.fresh {S : Type} (s : S) : World S :=
  { store := s, res := { statusCode := none, body := none }, nextCalls := [], storeCalls := [] }

/-- The document model a handler imports (`Booking` or `User`): each awaited call either
resolves with a value or rejects with an error, and leaves a store state behind. -/
structure Model (S : Type) where
  modelName : String
  create : Fields → S → Completion JSValue × S
  find : Option Fields → S → Completion JSValue × S
  findPopulate : Fields → String → S → Completion JSValue × S

/-- A computation that may change the world and may throw. -/
def Eff (S : Type) (α : Type) : Type := World S → Completion α × World S

namespace Eff

variable {S : Type} {α β : Type}

/-- Finish normally with `a`. -/
def ret (a : α) : Eff S α := fun w => (.normal a, w)

/-- Throw `e`. -/
def throwE (e : JSValue) : Eff S α := fun w => (.throw e, w)

/-- Sequencing: a throw in the first part skips the second; effects already made stay. -/
def andThen (m : Eff S α) (f : α → Eff S β) : Eff S β := fun w =>
  match m w with
  | (.normal a, w1) => f a w1
  | (.throw e, w1) => (.throw e, w1)

instance : Monad (Eff S) where
  pure := ret
  bind := andThen

/-- The statement `try { body } catch (error) { handler error }`. -/
def tryCatch (body : Eff S α) (handler : JSValue → Eff S α) : Eff S α := fun w =>
  match body w with
  | (.normal a, w1) => (.normal a, w1)
  | (.throw e, w1) => handler e w1

/-- Lift a pure completion. -/
def ofCompletion (c : Completion α) : Eff S α := fun w => (c, w)

end Eff

open Eff

/-- The expression `v.name`: reading a property of `undefined` or `null` throws a `TypeError`;
a plain object yields its own property or `undefined`. Strings and arrays have `length`;
no other property of a primitive or an array is among the names the handlers read
(`placeId`, `userId`, `CheckIn`, `CheckOut`, `PartyType`, `name`, `email`), so those read as
`undefined`. -/
def getProp (v : JSValue) (name : String) : Completion JSValue :=
  match v with
  | .undefined => .throw (typeError .undefined name)
  | .null => .throw (typeError .null name)
  | .obj fields => .normal (getField fields name)
  | .str s => .normal (if name = "length" then .num s.length else .undefined)
  | .arr items => .normal (if name = "length" then .num items.length else .undefined)
  | _ => .normal .undefined

section Effects

variable {S : Type}

/-- The expression `v.name` as a computation. -/
def readProp (v : JSValue) (name : String) : Eff S JSValue := ofCompletion (getProp v name)

/-- The expression `!v.name`. -/
def notProp (v : JSValue) (name : String) : Eff S Bool := do
  let x ← readProp v name
  pure (!x.truthy)

/-- The expression `p || q` on booleans: `q` is evaluated only when `p` is false. -/
def orElse (p q : Eff S Bool) : Eff S Bool := do
  if (← p) then pure true else q

/-- The call `res.status(code)`. -/
def resStatus (code : Nat) : Eff S Unit := fun w =>
  (.normal (), { w with res := { w.res with statusCode := some code } })

/-- The call `.send()` with no argument: the response goes out with an empty body. -/
def resSend : Eff S Unit := fun w =>
  (.normal (), { w with res := { w.res with body := some .empty } })

/-- The call `.json(v)`. -/
def resJson (v : JSValue) : Eff S Unit := fun w =>
  (.normal (), { w with res := { w.res with body := some (.json v) } })

/-- The call `next(error)`. -/
def callNext (error : JSValue) : Eff S Unit := fun w =>
  (.normal (), { w with nextCalls := w.nextCalls ++ [error] })

/-- The expression `await M.create(doc)`. -/
def awaitCreate (M : Model S) (doc : Fields) : Eff S JSValue := fun w =>
  ((M.create doc w.store).1,
    { w with store := (M.create doc w.store).2,
             storeCalls := w.storeCalls ++ [.create M.modelName doc] })

/-- The expression `await M.find()` (no filter) or `await M.find(filter)`. -/
def awaitFind (M : Model S) (filter : Option Fields) : Eff S JSValue := fun w =>
  ((M.find filter w.store).1,
    { w with store := (M.find filter w.store).2,
             storeCalls := w.storeCalls ++ [.find M.modelName filter] })

/-- The expression `await M.find(filter).populate(path)`. -/
def awaitFindPopulate (M : Model S) (filter : Fields) (path : String) : Eff S JSValue := fun w =>
  ((M.findPopulate filter path w.store).1,
    { w with store := (M.findPopulate filter path w.store).2,
             storeCalls := w.storeCalls ++ [.findPopulate M.modelName filter path] })

/-! ## The handlers of `Booking.js` -/

/-- The handler `createBooking(req, res, next)`. -/
def createBooking (Booking : Model S) (req : Request) : Eff S Unit :=
  tryCatch
    (do
      let booking := req.body
      if (← orElse (orElse (orElse (orElse
              (notProp booking "placeId")
              (notProp booking "userId"))
              (notProp booking "CheckIn"))
              (notProp booking "CheckOut"))
              (notProp booking "PartyType")) then
        resStatus 400
        resSend
      else
        let placeId ← readProp booking "placeId"
        let userId ← readProp booking "userId"
        let checkIn ← readProp booking "CheckIn"
        let checkOut ← readProp booking "CheckOut"
        let partyType ← readProp booking "PartyType"
        let _ ← awaitCreate Booking
          [("placeId", placeId), ("userId", userId), ("CheckIn", checkIn),
           ("CheckOut", checkOut), ("PartyType", partyType)]
        resStatus 201
        resSend)
    (fun error => callNext error)

/-- The handler `getAllBookingForPlace(req, res, next)`. -/
def getAllBookingForPlace (Booking : Model S) (req : Request) : Eff S Unit :=
  tryCatch
    (do
      let placeId ← readProp req.params "placeId"
      let booking ← awaitFindPopulate Booking [("placeId", placeId)] "userId"
      resStatus 200
      resJson booking)
    (fun error => callNext error)

/-- The handler `getAllBookings(req, res)`. It declares no `next` parameter and the module
binds no such name, so the `next(error)` of its `catch` block throws a `ReferenceError` when
it looks the identifier up, before any call is made. -/
def getAllBookings (Booking : Model S) (_req : Request) : Eff S Unit :=
  tryCatch
    (do
      let places ← awaitFind Booking none
      resStatus 200
      resJson places)
    (fun _error => throwE (referenceError "next"))

/-! ## The handlers of `user.js` -/

/-- The handler `createUser(req, res, next)`. -/
def createUser (User : Model S) (req : Request) : Eff S Unit :=
  tryCatch
    (do
      let user := req.body
      if (← orElse (notProp user "name") (notProp user "email")) then
        resStatus 400
        resSend
      else
        let name ← readProp user "name"
        let email ← readProp user "email"
        let _ ← awaitCreate User [("name", name), ("email", email)]
        resStatus 201
        resSend)
    (fun error => callNext error)

/-- The handler `GetAllUsers(req, res)`: no `try`, so a rejected `User.find()` rejects the
handler itself. -/
def GetAllUsers (User : Model S) (_req : Request) : Eff S Unit := do
  let users ← awaitFind User none
  resStatus 200
  resJson users

end Effects

/-! ## The document store -/

/-- Modelled from the spec: a stored document of the missing store, which keeps each record
under an identifier ("Booking.userId references a User by identifier"). -/
structure Document where
  id : JSValue
  record : Fields
  deriving Repr

/-- Modelled from the spec: the persistence collaborator behind the `Booking` and `User`
models, whose definition (the schema modules and the document mapper) is not part of the
sources. Its state is the two collections, the supply of fresh identifiers, and `failure`,
the error every call throws while the store cannot serve requests (`none` when it can). -/
structure Store where
  users : List Document
  bookings : List Document
  nextId : Nat
  failure : Option JSValue
  deriving Repr

/-- The two collections of the store. -/
inductive Collection where
  | users
  | bookings
  deriving Repr

namespace Store

/-- The documents of a collection. -/
def docs (s : Store) : Collection → List Document
  | .users => s.users
  | .bookings => s.bookings

/-- Modelled from the spec: whether a record matches a query filter, the missing `find`
taking "a filter" with "standard query semantics": every property of the filter has the same
value in the record. No filter matches every record. -/
def matchesFilter (filter : Option Fields) (record : Fields) : Bool :=
  match filter with
  | none => true
  | some fs => fs.all (fun kv => (getField record kv.1).beq kv.2)

/-- Modelled from the spec: the user a reference identifies in the missing store, the first
user document whose identifier is `ref`. -/
def lookupUser (s : Store) (ref : JSValue) : Option Document :=
  s.users.find? (fun d => d.id.beq ref)

/-- Modelled from the spec: the value a reference expands to, the missing `expand` "replacing
a foreign-key-style reference with the full referenced record". The spec does not say what a
reference to no record expands to; it is `null` here. -/
def referenced (s : Store) (ref : JSValue) : JSValue :=
  match s.lookupUser ref with
  | some d => .obj d.record
  | none => .null

/-- Modelled from the spec: expansion of property `path` of a record, the missing
`find(filter).expand(relatedField)`: the value of that property is replaced by the record it
references, every other property is kept. -/
def expand (s : Store) (path : String) (record : Fields) : Fields :=
  record.map (fun kv => (kv.1, if kv.1 = path then s.referenced kv.2 else kv.2))

/-- Modelled from the spec: the missing `create(fields) -> record | throws`: the record is
appended to the collection under the next identifier of the supply and returned. -/
def create (c : Collection) (doc : Fields) (s : Store) : Completion JSValue × Store :=
  match s.failure with
  | some e => (.throw e, s)
  | none =>
    match c with
    | .users =>
      (.normal (.obj doc),
        { s with users := s.users ++ [{ id := .str (toString s.nextId), record := doc }],
                 nextId := s.nextId + 1 })
    | .bookings =>
      (.normal (.obj doc),
        { s with bookings := s.bookings ++ [{ id := .str (toString s.nextId), record := doc }],
                 nextId := s.nextId + 1 })

/-- Modelled from the spec: the missing `find(filter) -> list<record> | throws`: the records of
the collection that match the filter, in stored order; the store is not changed. -/
def find (c : Collection) (filter : Option Fields) (s : Store) : Completion JSValue × Store :=
  match s.failure with
  | some e => (.throw e, s)
  | none =>
    (.normal (.arr (((s.docs c).filter (fun d => matchesFilter filter d.record)).map
      (fun d => .obj d.record))), s)

/-- Modelled from the spec: the missing
`find(filter).expand(field) -> list<record-with-expanded-field> | throws`: the matching
records, each with property `path` expanded; the store is not changed. -/
def findPopulate (c : Collection) (filter : Fields) (path : String) (s : Store) :
    Completion JSValue × Store :=
  match s.failure with
  | some e => (.throw e, s)
  | none =>
    (.normal (.arr (((s.docs c).filter (fun d => matchesFilter (some filter) d.record)).map
      (fun d => .obj (s.expand path d.record)))), s)

/-- Modelled from the spec: the missing model object over one collection of the store. -/
def model (name : String) (c : Collection) : Model Store :=
  { modelName := name
    create := create c
    find := find c
    findPopulate := findPopulate c }

end Store

/-- Modelled from the spec: the missing `Booking` model of `infrastructure/schemas/Booking.js`. -/
def Booking : Model Store := Store.model "Booking" .bookings

/-- Modelled from the spec: the missing `User` model of `infrastructure/schemas/User.js`. -/
def User : Model Store := Store.model "User" .users

/-- The store with no documents, able to serve requests. -/
def Store.initial : Store := { users := [], bookings := [], nextId := 0, failure := none }

/-- The five properties `createBooking` requires of the request body. -/
def bookingFields : List String := ["placeId", "userId", "CheckIn", "CheckOut", "PartyType"]

/-- The two properties `createUser` requires of the request body. -/
def userFields : List String := ["name", "email"]

/-- The record `createBooking` builds from the body for `Booking.create`. -/
def bookingRecord (fields : Fields) : Fields :=
  [("placeId", getField fields "placeId"), ("userId", getField fields "userId"),
   ("CheckIn", getField fields "CheckIn"), ("CheckOut", getField fields "CheckOut"),
   ("PartyType", getField fields "PartyType")]

/-- The record `createUser` builds from the body for `User.create`. -/
def userRecord (fields : Fields) : Fields :=
  [("name", getField fields "name"), ("email", getField fields "email")]

/-- The answer of `getAllBookingForPlace` for place `p` in store `s`: the stored booking
records whose `placeId` is `p`, in stored order, each with `userId` expanded. -/
def bookingsForPlace (s : Store) (p : JSValue) : List JSValue :=
  (s.bookings.filter (fun d => (getField d.record "placeId").beq p)).map
    (fun d => .obj (s.expand "userId" d.record))

/-! ## Sample requests and stores -/

/-- The body of the scenario's user request. -/
def aliceBody : Fields := [("name", .str "Alice"), ("email", .str "a@x.com")]

/-- The store after the scenario's user has been created in the empty store. -/
def storeWithAlice : Store :=
  { users := [{ id := .str "0", record := aliceBody }], bookings := [], nextId := 1,
    failure := none }

/-- The body of the scenario's booking request; the extra property `note` is not one of the
five the handler reads. -/
def bookingBody : Fields :=
  [("placeId", .str "P1"), ("userId", .str "0"), ("CheckIn", .str "2024-01-01"),
   ("CheckOut", .str "2024-01-03"), ("PartyType", .str "couple"), ("note", .str "late")]

/-- The scenario's booking as `getAllBookingForPlace` returns it. -/
def expandedBooking : JSValue :=
  .obj [("placeId", .str "P1"), ("userId", .obj aliceBody), ("CheckIn", .str "2024-01-01"),
        ("CheckOut", .str "2024-01-03"), ("PartyType", .str "couple")]

/-- A store that cannot serve requests. -/
def storeDown : Store := { storeWithAlice with failure := some (.str "ECONNREFUSED") }

/-- A request with the given body and no path parameter. -/
def postRequest (body : JSValue) : Request := { body := body, params := .obj [], query := .obj [] }

/-- A request for the bookings of place `p`. -/
def placeRequest (p : JSValue) : Request :=
  { body := .undefined, params := .obj [("placeId", p)], query := .obj [] }

/-- The scenario's booking as stored. -/
def storedBooking : Fields :=
  [("placeId", .str "P1"), ("userId", .str "0"), ("CheckIn", .str "2024-01-01"),
   ("CheckOut", .str "2024-01-03"), ("PartyType", .str "couple")]

/-- A booking of another place. -/
def otherBooking : Fields :=
  [("placeId", .str "P2"), ("userId", .str "0"), ("CheckIn", .str "2024-02-01"),
   ("CheckOut", .str "2024-02-02"), ("PartyType", .str "family")]

/-- A store holding one user and two bookings of different places. -/
def storeWithBookings : Store :=
  { users := [{ id := .str "0", record := aliceBody }],
    bookings := [{ id := .str "1", record := storedBooking },
                 { id := .str "2", record := otherBooking }],
    nextId := 3, failure := none }

/-! ## Equality of values -/

namespace JSValue

mutual
theorem beq_iff : ∀ a b : JSValue, beq a b = true ↔ a = b
  | undefined, b => by cases b <;> simp [beq]
  | null, b => by cases b <;> simp [beq]
  | bool a, b => by cases b <;> simp [beq]
  | num a, b => by cases b <;> simp [beq]
  | nan, b => by cases b <;> simp [beq]
  | str a, b => by cases b <;> simp [beq]
  | arr a, b => by cases b <;> simp [beq, beqItems_iff a]
  | obj a, b => by cases b <;> simp [beq, beqFields_iff a]
theorem beqItems_iff : ∀ a b : List JSValue, beqItems a b = true ↔ a = b
  | [], b => by cases b <;> simp [beqItems]
  | x :: xs, b => by cases b <;> simp [beqItems, beq_iff x, beqItems_iff xs]
theorem beqFields_iff : ∀ a b : List (String × JSValue), beqFields a b = true ↔ a = b
  | [], b => by cases b <;> simp [beqFields]
  | (k, x) :: xs, b => by
    cases b with
    | nil => simp [beqFields]
    | cons h t =>
      obtain ⟨l, y⟩ := h
      simp [beqFields, beq_iff x, beqFields_iff xs, and_assoc]
end

instance : DecidableEq JSValue := fun a b => decidable_of_iff _ (beq_iff a b)

/-- The boolean equality test decides equality. -/
theorem beq_decide (a b : JSValue) : a.beq b = decide (a = b) := by
  rw [Bool.eq_iff_iff, beq_iff, decide_eq_true_iff]

end JSValue

/-! ## Evaluation lemmas -/

section Lemmas

variable {S : Type}

theorem notProp_obj (fields : Fields) (name : String) (w : World S) :
    notProp (.obj fields) name w = (.normal (!(getField fields name).truthy), w) := rfl

theorem readProp_obj (fields : Fields) (name : String) (w : World S) :
    readProp (.obj fields) name w = (.normal (getField fields name), w) := rfl

theorem orElse_normal (p q : Eff S Bool) (w : World S) (a b : Bool)
    (hp : p w = (.normal a, w)) (hq : q w = (.normal b, w)) :
    orElse p q w = (.normal (a || b), w) := by
  cases a <;> simp [orElse, bind, andThen, hp, hq, pure, ret]

end Lemmas

/-! ## Validation failures -/

section Claims

variable {S : Type}

theorem bookingCheck_obj (fields : Fields) (w : World S) :
    orElse (orElse (orElse (orElse
      (notProp (.obj fields) "placeId")
      (notProp (.obj fields) "userId"))
      (notProp (.obj fields) "CheckIn"))
      (notProp (.obj fields) "CheckOut"))
      (notProp (.obj fields) "PartyType") w
    = (.normal (!(bookingFields.all (fun k => (getField fields k).truthy))), w) := by
  rw [orElse_normal _ _ w _ _
        (orElse_normal _ _ w _ _
          (orElse_normal _ _ w _ _
            (orElse_normal _ _ w _ _ (notProp_obj fields _ w) (notProp_obj fields _ w))
            (notProp_obj fields _ w))
          (notProp_obj fields _ w))
        (notProp_obj fields _ w)]
  simp [bookingFields, Bool.not_and, Bool.or_assoc]

theorem userCheck_obj (fields : Fields) (w : World S) :
    orElse (notProp (.obj fields) "name") (notProp (.obj fields) "email") w
    = (.normal (!(userFields.all (fun k => (getField fields k).truthy))), w) := by
  rw [orElse_normal _ _ w _ _ (notProp_obj fields _ w) (notProp_obj fields _ w)]
  simp [userFields, Bool.not_and]

/-- What `createBooking` does with a body that is a record. -/
theorem createBooking_obj (M : Model S) (req : Request) (fields : Fields) (s : S)
    (hbody : req.body = .obj fields) :
    createBooking M req (World.fresh s) =
      if bookingFields.all (fun k => (getField fields k).truthy) then
        match M.create (bookingRecord fields) s with
        | (.normal _, s1) =>
          (.normal (),
            { store := s1, res := { statusCode := some 201, body := some .empty },
              nextCalls := [], storeCalls := [.create M.modelName (bookingRecord fields)] })
        | (.throw e, s1) =>
          (.normal (),
            { store := s1, res := { statusCode := none, body := none },
              nextCalls := [e], storeCalls := [.create M.modelName (bookingRecord fields)] })
      else
        (.normal (),
          { store := s, res := { statusCode := some 400, body := some .empty },
            nextCalls := [], storeCalls := [] }) := by
  unfold createBooking
  simp only [hbody, Eff.tryCatch, bind, Eff.andThen, bookingCheck_obj]
  cases hall : bookingFields.all (fun k => (getField fields k).truthy)
  · simp [resStatus, resSend, World.fresh, Eff.andThen]
  · rcases hc : M.create (bookingRecord fields) s with ⟨r, s1⟩
    simp only [bookingRecord] at hc
    cases r <;>
      simp [readProp_obj, awaitCreate, World.fresh, bookingRecord, Eff.andThen, hc, resStatus,
        resSend, callNext]

/-- What `createUser` does with a body that is a record. -/
theorem createUser_obj (M : Model S) (req : Request) (fields : Fields) (s : S)
    (hbody : req.body = .obj fields) :
    createUser M req (World.fresh s) =
      if userFields.all (fun k => (getField fields k).truthy) then
        match M.create (userRecord fields) s with
        | (.normal _, s1) =>
          (.normal (),
            { store := s1, res := { statusCode := some 201, body := some .empty },
              nextCalls := [], storeCalls := [.create M.modelName (userRecord fields)] })
        | (.throw e, s1) =>
          (.normal (),
            { store := s1, res := { statusCode := none, body := none },
              nextCalls := [e], storeCalls := [.create M.modelName (userRecord fields)] })
      else
        (.normal (),
          { store := s, res := { statusCode := some 400, body := some .empty },
            nextCalls := [], storeCalls := [] }) := by
  unfold createUser
  simp only [hbody, Eff.tryCatch, bind, Eff.andThen, userCheck_obj]
  cases hall : userFields.all (fun k => (getField fields k).truthy)
  · simp [resStatus, resSend, World.fresh, Eff.andThen]
  · rcases hc : M.create (userRecord fields) s with ⟨r, s1⟩
    simp only [userRecord] at hc
    cases r <;>
      simp [readProp_obj, awaitCreate, World.fresh, userRecord, Eff.andThen, hc, resStatus,
        resSend, callNext]

/-- A list of required properties is all truthy exactly when none of them is falsy. -/
theorem all_truthy_false (names : List String) (fields : Fields)
    (h : ∃ k ∈ names, (getField fields k).truthy = false) :
    names.all (fun k => (getField fields k).truthy) = false := by
  obtain ⟨k, hk, hf⟩ := h
  rw [List.all_eq_false]
  exact ⟨k, hk, by simp [hf]⟩

/-- C1. When the body of a `createBooking` request is a record in which one of `placeId`,
`userId`, `CheckIn`, `CheckOut`, `PartyType` is absent or falsy, the handler returns with
status 400 and an empty body sent, no call made on the model, the store as it was and `next`
not called. -/
theorem createBooking_rejects_incomplete (M : Model S) (req : Request) (fields : Fields) (s : S)
    (hbody : req.body = .obj fields)
    (hmissing : ∃ k ∈ bookingFields, (getField fields k).truthy = false) :
    createBooking M req (World.fresh s) =
      (.normal (),
        { store := s, res := { statusCode := some 400, body := some .empty },
          nextCalls := [], storeCalls := [] }) := by
  rw [createBooking_obj M req fields s hbody, all_truthy_false _ _ hmissing]
  rfl

/-- C2. When the body of a `createBooking` request is a record with all five properties truthy
and `Booking.create` resolves, the handler has called `create` exactly once, with the record
of exactly the five properties taken from the body, has set status 201 and sent an empty
body, and has not called `next`. -/
theorem createBooking_persists (M : Model S) (req : Request) (fields : Fields) (s s1 : S)
    (doc : JSValue) (hbody : req.body = .obj fields)
    (hall : ∀ k ∈ bookingFields, (getField fields k).truthy = true)
    (hcreate : M.create (bookingRecord fields) s = (.normal doc, s1)) :
    createBooking M req (World.fresh s) =
      (.normal (),
        { store := s1, res := { statusCode := some 201, body := some .empty },
          nextCalls := [],
          storeCalls := [.create M.modelName
            [("placeId", getField fields "placeId"), ("userId", getField fields "userId"),
             ("CheckIn", getField fields "CheckIn"), ("CheckOut", getField fields "CheckOut"),
             ("PartyType", getField fields "PartyType")]] }) := by
  rw [createBooking_obj M req fields s hbody, List.all_eq_true.mpr hall, hcreate]
  rfl

/-- C3. When the body of a `createUser` request is a record in which `name` or `email` is
absent or falsy, the handler returns with status 400 and an empty body sent, no call made on
the model, the store as it was and `next` not called. -/
theorem createUser_rejects_incomplete (M : Model S) (req : Request) (fields : Fields) (s : S)
    (hbody : req.body = .obj fields)
    (hmissing : ∃ k ∈ userFields, (getField fields k).truthy = false) :
    createUser M req (World.fresh s) =
      (.normal (),
        { store := s, res := { statusCode := some 400, body := some .empty },
          nextCalls := [], storeCalls := [] }) := by
  rw [createUser_obj M req fields s hbody, all_truthy_false _ _ hmissing]
  rfl

/-- C4. When the body of a `createUser` request is a record with `name` and `email` truthy and
`User.create` resolves, the handler has called `create` exactly once, with the record of
exactly `name` and `email` taken from the body, has set status 201 and sent an empty body,
and has not called `next`. -/
theorem createUser_persists (M : Model S) (req : Request) (fields : Fields) (s s1 : S)
    (doc : JSValue) (hbody : req.body = .obj fields)
    (hall : ∀ k ∈ userFields, (getField fields k).truthy = true)
    (hcreate : M.create (userRecord fields) s = (.normal doc, s1)) :
    createUser M req (World.fresh s) =
      (.normal (),
        { store := s1, res := { statusCode := some 201, body := some .empty },
          nextCalls := [],
          storeCalls := [.create M.modelName
            [("name", getField fields "name"), ("email", getField fields "email")]] }) := by
  rw [createUser_obj M req fields s hbody, List.all_eq_true.mpr hall, hcreate]
  rfl

/-! ## Store failures and absent bodies -/

/-- What `getAllBookingForPlace` does once the path parameter has been read. -/
theorem getAllBookingForPlace_run (M : Model S) (req : Request) (p : JSValue) (s : S)
    (hparam : getProp req.params "placeId" = .normal p) :
    getAllBookingForPlace M req (World.fresh s) =
      match M.findPopulate [("placeId", p)] "userId" s with
      | (.normal list, s1) =>
        (.normal (),
          { store := s1, res := { statusCode := some 200, body := some (.json list) },
            nextCalls := [],
            storeCalls := [.findPopulate M.modelName [("placeId", p)] "userId"] })
      | (.throw e, s1) =>
        (.normal (),
          { store := s1, res := { statusCode := none, body := none },
            nextCalls := [e],
            storeCalls := [.findPopulate M.modelName [("placeId", p)] "userId"] }) := by
  unfold getAllBookingForPlace
  rcases hc : M.findPopulate [("placeId", p)] "userId" s with ⟨r, s1⟩
  cases r <;>
    simp [Eff.tryCatch, bind, Eff.andThen, readProp, Eff.ofCompletion, hparam,
      awaitFindPopulate, World.fresh, hc, resStatus, resJson, callNext]

/-- What `getAllBookings` does. -/
theorem getAllBookings_run (M : Model S) (req : Request) (s : S) :
    getAllBookings M req (World.fresh s) =
      match M.find none s with
      | (.normal list, s1) =>
        (.normal (),
          { store := s1, res := { statusCode := some 200, body := some (.json list) },
            nextCalls := [], storeCalls := [.find M.modelName none] })
      | (.throw _, s1) =>
        (.throw (referenceError "next"),
          { store := s1, res := { statusCode := none, body := none },
            nextCalls := [], storeCalls := [.find M.modelName none] }) := by
  unfold getAllBookings
  rcases hc : M.find none s with ⟨r, s1⟩
  cases r <;>
    simp [Eff.tryCatch, bind, Eff.andThen, awaitFind, World.fresh, hc, resStatus, resJson,
      Eff.throwE]

/-- What `GetAllUsers` does. -/
theorem GetAllUsers_run (M : Model S) (req : Request) (s : S) :
    GetAllUsers M req (World.fresh s) =
      match M.find none s with
      | (.normal list, s1) =>
        (.normal (),
          { store := s1, res := { statusCode := some 200, body := some (.json list) },
            nextCalls := [], storeCalls := [.find M.modelName none] })
      | (.throw e, s1) =>
        (.throw e,
          { store := s1, res := { statusCode := none, body := none },
            nextCalls := [], storeCalls := [.find M.modelName none] }) := by
  unfold GetAllUsers
  rcases hc : M.find none s with ⟨r, s1⟩
  cases r <;> simp [bind, Eff.andThen, awaitFind, World.fresh, hc, resStatus, resJson]

/-- C7. When the store call of `createBooking` (valid body), of `createUser` (valid body) or of
`getAllBookingForPlace` rejects with `e`, the handler has called `next` exactly once, with
`e` itself, has set no status and sent no body, and has made that one store call only. -/
theorem store_failure_forwarded (M : Model S) (req : Request) (s s1 : S) (e : JSValue) :
    (∀ fields, req.body = .obj fields →
      (∀ k ∈ bookingFields, (getField fields k).truthy = true) →
      M.create (bookingRecord fields) s = (.throw e, s1) →
      createBooking M req (World.fresh s) =
        (.normal (),
          { store := s1, res := { statusCode := none, body := none }, nextCalls := [e],
            storeCalls := [.create M.modelName (bookingRecord fields)] })) ∧
    (∀ fields, req.body = .obj fields →
      (∀ k ∈ userFields, (getField fields k).truthy = true) →
      M.create (userRecord fields) s = (.throw e, s1) →
      createUser M req (World.fresh s) =
        (.normal (),
          { store := s1, res := { statusCode := none, body := none }, nextCalls := [e],
            storeCalls := [.create M.modelName (userRecord fields)] })) ∧
    (∀ p, getProp req.params "placeId" = .normal p →
      M.findPopulate [("placeId", p)] "userId" s = (.throw e, s1) →
      getAllBookingForPlace M req (World.fresh s) =
        (.normal (),
          { store := s1, res := { statusCode := none, body := none }, nextCalls := [e],
            storeCalls := [.findPopulate M.modelName [("placeId", p)] "userId"] })) := by
  refine ⟨?_, ?_, ?_⟩
  · intro fields hbody hall hcreate
    rw [createBooking_obj M req fields s hbody, List.all_eq_true.mpr hall, hcreate]
    rfl
  · intro fields hbody hall hcreate
    rw [createUser_obj M req fields s hbody, List.all_eq_true.mpr hall, hcreate]
    rfl
  · intro p hparam hfind
    rw [getAllBookingForPlace_run M req p s hparam, hfind]

/-- C9. `getAllBookings` and `GetAllUsers` never call `next`. When `find` rejects with `e`,
`getAllBookings` itself rejects, with the `ReferenceError` for the unbound name `next` in
place of `e`, and `GetAllUsers` itself rejects with `e`; neither sets a status or sends a
body. -/
theorem list_handlers_never_forward (M : Model S) (req : Request) (s : S) :
    (getAllBookings M req (World.fresh s)).2.nextCalls = [] ∧
    (GetAllUsers M req (World.fresh s)).2.nextCalls = [] ∧
    (∀ e s1, M.find none s = (.throw e, s1) →
      getAllBookings M req (World.fresh s) =
        (.throw (referenceError "next"),
          { store := s1, res := { statusCode := none, body := none }, nextCalls := [],
            storeCalls := [.find M.modelName none] }) ∧
      GetAllUsers M req (World.fresh s) =
        (.throw e,
          { store := s1, res := { statusCode := none, body := none }, nextCalls := [],
            storeCalls := [.find M.modelName none] })) := by
  refine ⟨?_, ?_, ?_⟩
  · rw [getAllBookings_run]
    rcases M.find none s with ⟨r, s1⟩
    cases r <;> rfl
  · rw [GetAllUsers_run]
    rcases M.find none s with ⟨r, s1⟩
    cases r <;> rfl
  · intro e s1 hfind
    rw [getAllBookings_run, GetAllUsers_run, hfind]
    exact ⟨rfl, rfl⟩

/-- C10. When the body of a `createBooking` or `createUser` request is `undefined` or `null`,
reading the first required property throws a `TypeError`; the handler hands that error to
`next`, exactly once, sets no status (so not 400), sends no body and makes no call on the
model. -/
theorem absent_body_forwarded (M : Model S) (req : Request) (s : S)
    (habsent : req.body = .undefined ∨ req.body = .null) :
    createBooking M req (World.fresh s) =
      (.normal (),
        { store := s, res := { statusCode := none, body := none },
          nextCalls := [typeError req.body "placeId"], storeCalls := [] }) ∧
    createUser M req (World.fresh s) =
      (.normal (),
        { store := s, res := { statusCode := none, body := none },
          nextCalls := [typeError req.body "name"], storeCalls := [] }) := by
  rcases habsent with h | h <;> rw [h] <;> constructor <;>
    simp [createBooking, createUser, h, Eff.tryCatch, bind, Eff.andThen, orElse, notProp,
      readProp, Eff.ofCompletion, getProp, callNext, World.fresh]

end Claims

/-! ## Queries against the document store -/

/-- A filter on `placeId` alone matches the records whose `placeId` has that value. -/
theorem matchesFilter_placeId (p : JSValue) (record : Fields) :
    Store.matchesFilter (some [("placeId", p)]) record
      = decide (getField record "placeId" = p) := by
  simp [Store.matchesFilter, beq_decide]

/-- Expansion keeps the property names: a property that is present stays present, with its
value expanded when it is the expanded path and unchanged otherwise. -/
theorem lookup_expand (s : Store) (path : String) (record : Fields) (k : String) :
    (s.expand path record).lookup k =
      (record.lookup k).map (fun v => if k = path then s.referenced v else v) := by
  induction record with
  | nil => simp [Store.expand]
  | cons kv rest ih =>
    obtain ⟨k1, v1⟩ := kv
    simp only [Store.expand, List.map_cons, List.lookup_cons] at ih ⊢
    cases hk : k == k1
    · simpa using ih
    · have hkk : k = k1 := by simpa using hk
      simp [hkk]

/-- The answer for a place, with the match on `placeId` written as an equality. -/
theorem bookingsForPlace_eq (s : Store) (p : JSValue) :
    bookingsForPlace s p =
      (s.bookings.filter (fun d => decide (getField d.record "placeId" = p))).map
        (fun d => .obj (s.expand "userId" d.record)) := by
  simp [bookingsForPlace, beq_decide]

/-- What `getAllBookingForPlace` answers from a store that serves the query. -/
theorem getAllBookingForPlace_store (s : Store) (req : Request) (p : JSValue)
    (hparam : getProp req.params "placeId" = .normal p) (hserves : s.failure = none) :
    getAllBookingForPlace Booking req (World.fresh s) =
      (.normal (),
        { store := s,
          res := { statusCode := some 200, body := some (.json (.arr (bookingsForPlace s p))) },
          nextCalls := [],
          storeCalls := [.findPopulate "Booking" [("placeId", p)] "userId"] }) := by
  rw [getAllBookingForPlace_run Booking req p s hparam]
  simp [Booking, Store.model, Store.findPopulate, hserves, Store.docs, matchesFilter_placeId,
    bookingsForPlace, beq_decide]

/-- C5. For every store state that serves the query and every place identifier `p` read from
the request path, `getAllBookingForPlace` sets status 200 and sends as JSON the list of
exactly the stored bookings whose `placeId` is `p`, each with every property kept except
`userId`, which is replaced by the record of the user it identifies; when no booking
matches, that list is empty and the status is still 200. -/
theorem getAllBookingForPlace_lists (s : Store) (req : Request) (p : JSValue)
    (hparam : getProp req.params "placeId" = .normal p) (hserves : s.failure = none) :
    getAllBookingForPlace Booking req (World.fresh s) =
      (.normal (),
        { store := s,
          res := { statusCode := some 200,
                   body := some (.json (.arr
                     ((s.bookings.filter (fun d => decide (getField d.record "placeId" = p))).map
                       (fun d => .obj (s.expand "userId" d.record))))) },
          nextCalls := [],
          storeCalls := [.findPopulate "Booking" [("placeId", p)] "userId"] }) ∧
    (∀ d : Document, ∀ ref u, d.record.lookup "userId" = some ref →
      s.lookupUser ref = some u →
      (s.expand "userId" d.record).lookup "userId" = some (.obj u.record)) ∧
    (∀ d : Document, ∀ k, k ≠ "userId" →
      (s.expand "userId" d.record).lookup k = d.record.lookup k) ∧
    ((∀ d ∈ s.bookings, getField d.record "placeId" ≠ p) →
      getAllBookingForPlace Booking req (World.fresh s) =
        (.normal (),
          { store := s,
            res := { statusCode := some 200, body := some (.json (.arr [])) },
            nextCalls := [],
            storeCalls := [.findPopulate "Booking" [("placeId", p)] "userId"] })) := by
  have hrun := getAllBookingForPlace_store s req p hparam hserves
  rw [bookingsForPlace_eq] at hrun
  refine ⟨hrun, ?_, ?_, ?_⟩
  · intro d ref u href hu
    rw [lookup_expand, href]
    simp [Store.referenced, hu]
  · intro d k hk
    rw [lookup_expand]
    cases d.record.lookup k <;> simp [hk]
  · intro hnone
    rw [hrun]
    have hempty : s.bookings.filter (fun d => decide (getField d.record "placeId" = p)) = [] := by
      rw [List.filter_eq_nil_iff]
      intro d hd
      simpa using hnone d hd
    simp [hempty]

/-- C6. For every store state and every request, `getAllBookings` and `GetAllUsers` make one
`find` call with no filter and leave the store as it was; when the store serves the query
they set status 200 and send as JSON every stored booking record, respectively every stored
user record, as stored (so with `userId` not expanded). -/
theorem list_handlers_return_all (s : Store) (req : Request) :
    (getAllBookings Booking req (World.fresh s)).2.store = s ∧
    (getAllBookings Booking req (World.fresh s)).2.storeCalls = [.find "Booking" none] ∧
    (GetAllUsers User req (World.fresh s)).2.store = s ∧
    (GetAllUsers User req (World.fresh s)).2.storeCalls = [.find "User" none] ∧
    (s.failure = none →
      getAllBookings Booking req (World.fresh s) =
        (.normal (),
          { store := s,
            res := { statusCode := some 200,
                     body := some (.json (.arr (s.bookings.map (fun d => .obj d.record)))) },
            nextCalls := [], storeCalls := [.find "Booking" none] }) ∧
      GetAllUsers User req (World.fresh s) =
        (.normal (),
          { store := s,
            res := { statusCode := some 200,
                     body := some (.json (.arr (s.users.map (fun d => .obj d.record)))) },
            nextCalls := [], storeCalls := [.find "User" none] })) := by
  rw [getAllBookings_run, GetAllUsers_run]
  cases hf : s.failure <;>
    simp [Booking, User, Store.model, Store.find, hf, Store.docs, Store.matchesFilter]

/-! ## Create, then list -/

/-- What `createBooking` leaves in a store after answering 201: the store served the call and
the record built from the body has been appended to the bookings. -/
theorem createBooking_store_after (s : Store) (req : Request) (fields : Fields)
    (hbody : req.body = .obj fields)
    (hcreated : (createBooking Booking req (World.fresh s)).2.res.statusCode = some 201) :
    s.failure = none ∧
    (createBooking Booking req (World.fresh s)).2.store =
      { s with bookings := s.bookings ++ [{ id := .str (toString s.nextId), record := bookingRecord fields }],
               nextId := s.nextId + 1 } := by
  rw [createBooking_obj Booking req fields s hbody] at hcreated ⊢
  cases hall : bookingFields.all (fun k => (getField fields k).truthy)
  · simp [hall] at hcreated
  · cases hf : s.failure
    · simp [hall, Booking, Store.model, Store.create, hf]
    · simp [hall, Booking, Store.model, Store.create, hf] at hcreated

/-- C8. In any store state, after `createBooking` has answered 201 to a body (so one with five
truthy properties) whose `userId` identifies the stored user `u`, `getAllBookingForPlace` for the same
`placeId` answers 200 with a list that ends with the new booking: the five properties of the
request, with `userId` replaced by the record of `u`. Before it come the earlier bookings of
that place; when the store held no booking, the list is that one booking. -/
theorem create_then_list (s : Store) (req req2 : Request) (fields : Fields) (u : Document)
    (hbody : req.body = .obj fields)
    (huser : s.lookupUser (getField fields "userId") = some u)
    (hcreated : (createBooking Booking req (World.fresh s)).2.res.statusCode = some 201)
    (hparam : getProp req2.params "placeId" = .normal (getField fields "placeId")) :
    getAllBookingForPlace Booking req2
        (World.fresh (createBooking Booking req (World.fresh s)).2.store) =
      (.normal (),
        { store := (createBooking Booking req (World.fresh s)).2.store,
          res := { statusCode := some 200,
                   body := some (.json (.arr
                     ((s.bookings.filter
                         (fun d => decide (getField d.record "placeId"
                           = getField fields "placeId"))).map
                         (fun d => .obj (s.expand "userId" d.record))
                       ++ [.obj [("placeId", getField fields "placeId"),
                                 ("userId", .obj u.record),
                                 ("CheckIn", getField fields "CheckIn"),
                                 ("CheckOut", getField fields "CheckOut"),
                                 ("PartyType", getField fields "PartyType")]]))) },
          nextCalls := [],
          storeCalls := [.findPopulate "Booking"
            [("placeId", getField fields "placeId")] "userId"] }) ∧
    (s.bookings = [] →
      (getAllBookingForPlace Booking req2
        (World.fresh (createBooking Booking req (World.fresh s)).2.store)).2.res.body =
        some (.json (.arr
          [.obj [("placeId", getField fields "placeId"),
                 ("userId", .obj u.record),
                 ("CheckIn", getField fields "CheckIn"),
                 ("CheckOut", getField fields "CheckOut"),
                 ("PartyType", getField fields "PartyType")]]))) := by
  obtain ⟨hserves, hstore⟩ := createBooking_store_after s req fields hbody hcreated
  have hrun := getAllBookingForPlace_store
    (createBooking Booking req (World.fresh s)).2.store req2 (getField fields "placeId") hparam
    (by rw [hstore]; exact hserves)
  have hlist : bookingsForPlace (createBooking Booking req (World.fresh s)).2.store
        (getField fields "placeId") =
      (s.bookings.filter
          (fun d => decide (getField d.record "placeId" = getField fields "placeId"))).map
          (fun d => .obj (s.expand "userId" d.record))
        ++ [.obj [("placeId", getField fields "placeId"),
                  ("userId", .obj u.record),
                  ("CheckIn", getField fields "CheckIn"),
                  ("CheckOut", getField fields "CheckOut"),
                  ("PartyType", getField fields "PartyType")]] := by
    have hfound := huser
    simp only [Store.lookupUser, getField, beq_decide] at hfound
    rw [hstore]
    simp [bookingsForPlace, List.filter_append, bookingRecord, getField, List.lookup,
      Store.expand, Store.referenced, Store.lookupUser, beq_decide, hfound]
  rw [hlist] at hrun
  refine ⟨hrun, ?_⟩
  intro hempty
  rw [hrun, hempty]
  rfl

/-! ## The claims at concrete requests -/

theorem createBooking_rejects_incomplete_witness :
    (getField [("placeId", .str "P1"), ("userId", .num 0)] "userId").truthy = false ∧
    createBooking Booking (postRequest (.obj [("placeId", .str "P1"), ("userId", .num 0)]))
        (World.fresh storeWithAlice) =
      (.normal (),
        { store := storeWithAlice, res := { statusCode := some 400, body := some .empty },
          nextCalls := [], storeCalls := [] }) :=
  ⟨by decide,
    createBooking_rejects_incomplete Booking _ [("placeId", .str "P1"), ("userId", .num 0)]
      storeWithAlice rfl ⟨"userId", by decide, by decide⟩⟩

theorem createBooking_persists_witness :
    createBooking Booking (postRequest (.obj bookingBody)) (World.fresh storeWithAlice) =
      (.normal (),
        { store :=
            { users := [{ id := .str "0", record := aliceBody }],
              bookings := [{ id := .str "1", record :=
                [("placeId", .str "P1"), ("userId", .str "0"), ("CheckIn", .str "2024-01-01"),
                 ("CheckOut", .str "2024-01-03"), ("PartyType", .str "couple")] }],
              nextId := 2, failure := none },
          res := { statusCode := some 201, body := some .empty },
          nextCalls := [],
          storeCalls := [.create "Booking"
            [("placeId", .str "P1"), ("userId", .str "0"), ("CheckIn", .str "2024-01-01"),
             ("CheckOut", .str "2024-01-03"), ("PartyType", .str "couple")]] }) :=
  createBooking_persists Booking (postRequest (.obj bookingBody)) bookingBody storeWithAlice _
    (.obj (bookingRecord bookingBody)) rfl (by decide) rfl

theorem createUser_rejects_incomplete_witness :
    createUser User (postRequest (.obj [("name", .str "Alice"), ("email", .str "")]))
        (World.fresh Store.initial) =
      (.normal (),
        { store := Store.initial, res := { statusCode := some 400, body := some .empty },
          nextCalls := [], storeCalls := [] }) :=
  createUser_rejects_incomplete User _ [("name", .str "Alice"), ("email", .str "")]
    Store.initial rfl ⟨"email", by decide, by decide⟩

theorem createUser_persists_witness :
    createUser User (postRequest (.obj aliceBody)) (World.fresh Store.initial) =
      (.normal (),
        { store := storeWithAlice, res := { statusCode := some 201, body := some .empty },
          nextCalls := [],
          storeCalls := [.create "User" [("name", .str "Alice"), ("email", .str "a@x.com")]] }) :=
  createUser_persists User (postRequest (.obj aliceBody)) aliceBody Store.initial storeWithAlice
    (.obj (userRecord aliceBody)) rfl (by decide) rfl

theorem getAllBookingForPlace_lists_witness :
    getAllBookingForPlace Booking (placeRequest (.str "P1")) (World.fresh storeWithBookings) =
      (.normal (),
        { store := storeWithBookings,
          res := { statusCode := some 200, body := some (.json (.arr [expandedBooking])) },
          nextCalls := [],
          storeCalls := [.findPopulate "Booking" [("placeId", .str "P1")] "userId"] }) ∧
    getAllBookingForPlace Booking (placeRequest (.str "P3")) (World.fresh storeWithBookings) =
      (.normal (),
        { store := storeWithBookings,
          res := { statusCode := some 200, body := some (.json (.arr [])) },
          nextCalls := [],
          storeCalls := [.findPopulate "Booking" [("placeId", .str "P3")] "userId"] }) :=
  ⟨(getAllBookingForPlace_lists storeWithBookings (placeRequest (.str "P1")) (.str "P1")
      rfl rfl).1,
   (getAllBookingForPlace_lists storeWithBookings (placeRequest (.str "P3")) (.str "P3")
      rfl rfl).2.2.2 (by decide)⟩

theorem list_handlers_return_all_witness :
    getAllBookings Booking (placeRequest (.str "P1")) (World.fresh storeWithBookings) =
      (.normal (),
        { store := storeWithBookings,
          res := { statusCode := some 200,
                   body := some (.json (.arr [.obj storedBooking, .obj otherBooking])) },
          nextCalls := [], storeCalls := [.find "Booking" none] }) ∧
    GetAllUsers User (placeRequest (.str "P1")) (World.fresh storeWithBookings) =
      (.normal (),
        { store := storeWithBookings,
          res := { statusCode := some 200, body := some (.json (.arr [.obj aliceBody])) },
          nextCalls := [], storeCalls := [.find "User" none] }) :=
  (list_handlers_return_all storeWithBookings (placeRequest (.str "P1"))).2.2.2.2 rfl

theorem store_failure_forwarded_witness :
    createBooking Booking (postRequest (.obj bookingBody)) (World.fresh storeDown) =
      (.normal (),
        { store := storeDown, res := { statusCode := none, body := none },
          nextCalls := [.str "ECONNREFUSED"],
          storeCalls := [.create "Booking" storedBooking] }) ∧
    createUser User (postRequest (.obj aliceBody)) (World.fresh storeDown) =
      (.normal (),
        { store := storeDown, res := { statusCode := none, body := none },
          nextCalls := [.str "ECONNREFUSED"],
          storeCalls := [.create "User" aliceBody] }) ∧
    getAllBookingForPlace Booking (placeRequest (.str "P1")) (World.fresh storeDown) =
      (.normal (),
        { store := storeDown, res := { statusCode := none, body := none },
          nextCalls := [.str "ECONNREFUSED"],
          storeCalls := [.findPopulate "Booking" [("placeId", .str "P1")] "userId"] }) :=
  ⟨(store_failure_forwarded Booking (postRequest (.obj bookingBody)) storeDown storeDown
      (.str "ECONNREFUSED")).1 bookingBody rfl (by decide) rfl,
   (store_failure_forwarded User (postRequest (.obj aliceBody)) storeDown storeDown
      (.str "ECONNREFUSED")).2.1 aliceBody rfl (by decide) rfl,
   (store_failure_forwarded Booking (placeRequest (.str "P1")) storeDown storeDown
      (.str "ECONNREFUSED")).2.2 (.str "P1") rfl rfl⟩

theorem create_then_list_witness :
    (createUser User (postRequest (.obj aliceBody)) (World.fresh Store.initial)).2.store
      = storeWithAlice ∧
    storeWithAlice.lookupUser (.str "0") = some { id := .str "0", record := aliceBody } ∧
    (createBooking Booking (postRequest (.obj bookingBody))
      (World.fresh storeWithAlice)).2.res.statusCode = some 201 ∧
    (getAllBookingForPlace Booking (placeRequest (.str "P1"))
      (World.fresh (createBooking Booking (postRequest (.obj bookingBody))
        (World.fresh storeWithAlice)).2.store)).2.res.body =
      some (.json (.arr [expandedBooking])) :=
  ⟨rfl, rfl, rfl,
   (create_then_list storeWithAlice (postRequest (.obj bookingBody)) (placeRequest (.str "P1"))
      bookingBody { id := .str "0", record := aliceBody } rfl rfl rfl rfl).2 rfl⟩

theorem list_handlers_never_forward_witness :
    getAllBookings Booking (placeRequest (.str "P1")) (World.fresh storeDown) =
      (.throw (referenceError "next"),
        { store := storeDown, res := { statusCode := none, body := none }, nextCalls := [],
          storeCalls := [.find "Booking" none] }) ∧
    GetAllUsers User (placeRequest (.str "P1")) (World.fresh storeDown) =
      (.throw (.str "ECONNREFUSED"),
        { store := storeDown, res := { statusCode := none, body := none }, nextCalls := [],
          storeCalls := [.find "User" none] }) :=
  ⟨((list_handlers_never_forward Booking (placeRequest (.str "P1")) storeDown).2.2
      (.str "ECONNREFUSED") storeDown rfl).1,
   ((list_handlers_never_forward User (placeRequest (.str "P1")) storeDown).2.2
      (.str "ECONNREFUSED") storeDown rfl).2⟩

theorem absent_body_forwarded_witness :
    createBooking Booking (postRequest .undefined) (World.fresh storeWithAlice) =
      (.normal (),
        { store := storeWithAlice, res := { statusCode := none, body := none },
          nextCalls := [typeError .undefined "placeId"], storeCalls := [] }) ∧
    createUser User (postRequest .null) (World.fresh storeWithAlice) =
      (.normal (),
        { store := storeWithAlice, res := { statusCode := none, body := none },
          nextCalls := [typeError .null "name"], storeCalls := [] }) :=
  ⟨(absent_body_forwarded Booking (postRequest .undefined) storeWithAlice (Or.inl rfl)).1,
   (absent_body_forwarded User (postRequest .null) storeWithAlice (Or.inr rfl)).2⟩
